import Mathlib

/-!
Verification of `aligner.py` (class `AlignClouds`): a shallow embedding of the
point-cloud affine alignment core over exact rationals.

A point cloud is a list of rows, each row a list of coordinates (first three
are x, y, z; further columns are extra per-point fields).  Numpy float arrays
are modelled with `ℚ` entries; numpy `arr[:,:3]` becomes `List.take 3` on each
row, and fancy indexing `B[idx,:3]` becomes `List.getD`.
-/

namespace AlignerModel

abbrev Cloud := List (List ℚ)

/-- Error taxonomy of the spec: `invalidInput` for malformed shapes, plus the
underlying numpy `valueError` for shape errors raised inside library calls. -/
inductive Err where
  | invalidInput
  | valueError
deriving DecidableEq

/-- Squared Euclidean distance between two coordinate rows: the row-wise
`np.sum((p - q) ** 2)` used throughout `aligner.py`. -/
def sqDist (p q : List ℚ) : ℚ :=
  ((p.zip q).map (fun ab => (ab.1 - ab.2) ^ 2)).sum

/-- Nearest-neighbor search of `scipy.spatial.KDTree.query` for one query
point: the (first) index of a data row minimizing the distance to `p`,
together with that squared distance.  `none` on an empty tree (scipy reports a
missing neighbor there).  Ties resolve to the lowest index, a deterministic
choice as the spec requires of the implementation-defined tie-break. -/
def nnBest (p : List ℚ) : Cloud → Option (Nat × ℚ)
  | [] => none
  | q :: rest =>
    match nnBest p rest with
    | none => some (0, sqDist p q)
    | some (j, d) =>
      if sqDist p q ≤ d then some (0, sqDist p q) else some (j + 1, d)

/-- The index component returned by `KDTree.query`: for a missing neighbor
(empty tree) scipy returns `self.n`, the number of data points. -/
def nnIndex (p : List ℚ) (data : Cloud) : Nat :=
  match nnBest p data with
  | none => data.length
  | some (j, _) => j

/-- `scipy.spatial.KDTree`: an immutable snapshot of the build-time data.
Construction succeeds for any well-formed array, including a zero-point one
(scipy builds an empty tree and flags missing neighbors at query time). -/
structure KDTree where
  data : Cloud
deriving DecidableEq

/-- Index component of `tree.query(p)` for a single query point. -/
def KDTree.query1 (t : KDTree) (p : List ℚ) : Nat :=
  nnIndex p t.data

/-- The `AlignClouds` object: `self.tree` from `__init__`, and
`self.optimal_params`, the attribute created by `estimate_transform`
(absent, hence `none`, before the first estimation). -/
structure AlignClouds where
  tree : KDTree
  optimal_params : Option (List ℚ)
deriving DecidableEq

/-- `AlignClouds.__init__`: `self.tree = KDTree(ex_2[:,:3])` (line 11).
No validation is performed on `ex_2`. -/
def init (ex_2 : Cloud) : AlignClouds :=
  { tree := { data := ex_2.map (List.take 3) }, optimal_params := none }

/-- `AlignClouds.__init__` with its failure behavior made explicit: the
constructor body raises nothing for any well-formed array (scipy's `KDTree`
accepts zero-point data), so the result is always `ok`. -/
def initE (ex_2 : Cloud) : Except Err AlignClouds :=
  Except.ok (init ex_2)

/-- One row of `transform_points` (lines 41-45): with
`affine_matrix = np.reshape(params[:9], (3, 3))` (row-major) and
`translation_vector = params[-3:]` (the LAST three entries), the new first
three coordinates are `row[:3] @ affine_matrix.T + translation_vector`,
so component `k` is `Σ_j row[j] * params[3*k + j] + translation_vector[k]`;
columns beyond the first three are copied unchanged. -/
def affineRow (params row : List ℚ) : List ℚ :=
  let m := params.take 9
  let t := params.drop (params.length - 3)
  [ row.getD 0 0 * m.getD 0 0 + row.getD 1 0 * m.getD 1 0
      + row.getD 2 0 * m.getD 2 0 + t.getD 0 0,
    row.getD 0 0 * m.getD 3 0 + row.getD 1 0 * m.getD 4 0
      + row.getD 2 0 * m.getD 5 0 + t.getD 1 0,
    row.getD 0 0 * m.getD 6 0 + row.getD 1 0 * m.getD 7 0
      + row.getD 2 0 * m.getD 8 0 + t.getD 2 0 ]
  ++ row.drop 3

/-- `AlignClouds.transform_points` (lines 40-45).  The guard
`assert len(params) == 12` is commented out in the source, so the body runs
for any `params` with at least 9 entries: `points.copy()` then the in-place
write of the first three columns, modelled as a pure per-row map. -/
def transform_points (points : Cloud) (params : List ℚ) : Cloud :=
  points.map (affineRow params)

/-- `transform_points` with the failure points of its numpy calls made
explicit: `np.reshape(params[:9], (3, 3))` raises a shape error when fewer
than 9 parameters are given, and the matrix product needs each point to have
at least 3 coordinates.  No other check exists: in particular NO length-12
check is performed (the assert on line 40 is commented out), so a vector of
10, 11, 13, ... parameters is accepted and silently truncated. -/
def transform_pointsE (points : Cloud) (params : List ℚ) :
    Except Err Cloud :=
  if params.length < 9 then Except.error Err.valueError
  else if points.any (fun r => r.length < 3) then Except.error Err.valueError
  else Except.ok (transform_points points params)

/-- `AlignClouds.loss_function` (lines 24-25):
`query_responses = self.tree.query(A[:,:3])`, then
`np.sum((A[:,:3] - B[query_responses[1],:3]) ** 2)`; the vectorized gather
and subtraction are folded into one per-row term here. -/
def loss_function (self : AlignClouds) (A B : Cloud) : ℚ :=
  (A.map (fun a =>
    sqDist (a.take 3) ((B.getD (self.tree.query1 (a.take 3)) []).take 3))).sum

/-- `AlignClouds.objective_function` (lines 59-61): the Chamfer loss of the
transformed source against the target. -/
def objective_function (self : AlignClouds) (params : List ℚ)
    (source target : Cloud) : ℚ :=
  loss_function self (transform_points source params) target

/-- The flattened `np.eye(3).reshape((-1,))` of line 76. -/
def eye3flat : List ℚ :=
  ([[1, 0, 0], [0, 1, 0], [0, 0, 1]] : Cloud).flatten

/-- `np.mean(c[:,:3], axis=0)` component `j`: the mean of column `j` over all
rows. -/
def colMean (c : Cloud) (j : Nat) : ℚ :=
  (c.map (fun r => r.getD j 0)).sum / (c.length : ℚ)

/-- The component-wise mean of the first three coordinates,
`np.mean(c[:,:3], axis=0)`. -/
def centroid3 (c : Cloud) : List ℚ :=
  [colMean c 0, colMean c 1, colMean c 2]

/-- The initial guess of `estimate_transform` (line 76):
`np.concatenate((np.eye(3).reshape((-1,)), np.mean(target[:,:3],axis=0) -
np.mean(source[:,:3],axis=0)))`. -/
def initial_params (source target : Cloud) : List ℚ :=
  eye3flat ++ List.zipWith (fun a b => a - b) (centroid3 target) (centroid3 source)

/-- `AlignClouds.estimate_transform` (lines 75-81).  The call to
`scipy.optimize.minimize(..., method='L-BFGS-B')` is the black-box external
minimizer the spec describes behind the interface
`minimize(objective_fn, initial_params) -> final_params`; it is passed in as
an explicit functional argument.  The method stores `result.x` in
`self.optimal_params` and returns it; the updated object is the second
component. -/
def estimate_transform (minimize : (List ℚ → ℚ) → List ℚ → List ℚ)
    (self : AlignClouds) (source target : Cloud) : List ℚ × AlignClouds :=
  let x := minimize (fun ps => objective_function self ps source target)
    (initial_params source target)
  (x, { self with optimal_params := some x })

/-- `estimate_transform` with its failure behavior made explicit: lines 75-81
contain no validation at all.  `np.mean` over an empty slice yields NaN with a
runtime warning (no exception), and the optimizer is invoked regardless, so
the method itself never raises before optimization begins. -/
def estimate_transformE (minimize : (List ℚ → ℚ) → List ℚ → List ℚ)
    (self : AlignClouds) (source target : Cloud) :
    Except Err (List ℚ × AlignClouds) :=
  Except.ok (estimate_transform minimize self source target)

/-- Spec-side formulation of the affine transform of one point: the 3×3
row-major matrix `M` formed from `params[0..8]`, applied to the row vector by
right-multiplication with its transpose, plus the translation
`params[9..11]`. -/
def specAffineRow (params row : List ℚ) : List ℚ :=
  (List.range 3).map (fun k =>
    ((List.range 3).map (fun j => row.getD j 0 * params.getD (3 * k + j) 0)).sum
      + params.getD (9 + k) 0)

/-- Spec-side minimum squared distance from a point to a cloud of coordinate
rows (the distance to its nearest neighbor). -/
def minSqDist (p : List ℚ) : Cloud → ℚ
  | [] => 0
  | [q] => sqDist p q
  | q :: r :: rest => min (sqDist p q) (minSqDist p (r :: rest))

/-- Spec-side one-directional Chamfer distance (§4.3): the sum over the query
cloud of the squared Euclidean distance from each point's first three
coordinates to its nearest neighbor among the target's first three
coordinates. -/
def chamferLoss (A T : Cloud) : ℚ :=
  (A.map (fun a => minSqDist (a.take 3) (T.map (List.take 3)))).sum

/-- A list of rational numbers of length 12 is a 12-element literal. -/
theorem exists_len12 (l : List ℚ) (h : l.length = 12) :
    ∃ a b c d e f g h0 i j k m, l = [a, b, c, d, e, f, g, h0, i, j, k, m] := by
  rcases l with _ | ⟨a, l⟩
  · simp only [List.length_nil] at h; omega
  rcases l with _ | ⟨b, l⟩
  · simp only [List.length_cons, List.length_nil] at h; omega
  rcases l with _ | ⟨c, l⟩
  · simp only [List.length_cons, List.length_nil] at h; omega
  rcases l with _ | ⟨d, l⟩
  · simp only [List.length_cons, List.length_nil] at h; omega
  rcases l with _ | ⟨e, l⟩
  · simp only [List.length_cons, List.length_nil] at h; omega
  rcases l with _ | ⟨f, l⟩
  · simp only [List.length_cons, List.length_nil] at h; omega
  rcases l with _ | ⟨g, l⟩
  · simp only [List.length_cons, List.length_nil] at h; omega
  rcases l with _ | ⟨h0, l⟩
  · simp only [List.length_cons, List.length_nil] at h; omega
  rcases l with _ | ⟨i, l⟩
  · simp only [List.length_cons, List.length_nil] at h; omega
  rcases l with _ | ⟨j, l⟩
  · simp only [List.length_cons, List.length_nil] at h; omega
  rcases l with _ | ⟨k, l⟩
  · simp only [List.length_cons, List.length_nil] at h; omega
  rcases l with _ | ⟨m, l⟩
  · simp only [List.length_cons, List.length_nil] at h; omega
  rcases l with _ | ⟨x, l⟩
  · exact ⟨a, b, c, d, e, f, g, h0, i, j, k, m, rfl⟩
  · simp only [List.length_cons, List.length_nil] at h; omega

/-- Squared distances are nonnegative. -/
theorem sqDist_nonneg (p q : List ℚ) : 0 ≤ sqDist p q := by
  apply List.sum_nonneg
  intro x hx
  simp only [List.mem_map] at hx
  obtain ⟨ab, _, rfl⟩ := hx
  positivity

/-- The squared distance from a point to itself is zero. -/
theorem sqDist_self (p : List ℚ) : sqDist p p = 0 := by
  induction p with
  | nil => rfl
  | cons a p ih =>
    simp only [sqDist, List.zip_cons_cons, List.map_cons, List.sum_cons] at ih ⊢
    rw [ih]; ring

/-- On a nonempty tree, the nearest-neighbor search returns an in-range index
whose row attains the reported distance, and that distance is minimal. -/
theorem nnBest_spec (p : List ℚ) (data : Cloud) (hd : data ≠ []) :
    ∃ j d, nnBest p data = some (j, d) ∧ j < data.length ∧
      sqDist p (data.getD j []) = d ∧ ∀ q ∈ data, d ≤ sqDist p q := by
  induction data with
  | nil => exact absurd rfl hd
  | cons q rest ih =>
    rcases eq_or_ne rest [] with h | h
    · subst h
      refine ⟨0, sqDist p q, rfl, by simp, rfl, ?_⟩
      intro r hr
      rcases List.mem_singleton.mp hr with rfl
      exact le_refl _
    · obtain ⟨j, d, hbest, hlt, hget, hmin⟩ := ih h
      by_cases hle : sqDist p q ≤ d
      · refine ⟨0, sqDist p q, ?_, by simp, rfl, ?_⟩
        · simp only [nnBest, hbest, if_pos hle]
        · intro r hr
          rcases List.mem_cons.mp hr with rfl | hr
          · exact le_refl _
          · exact le_trans hle (hmin r hr)
      · refine ⟨j + 1, d, ?_, by simpa using hlt, ?_, ?_⟩
        · simp only [nnBest, hbest, if_neg hle]
        · simpa using hget
        · intro r hr
          rcases List.mem_cons.mp hr with rfl | hr
          · exact le_of_lt (lt_of_not_le hle)
          · exact hmin r hr

/-- The minimum squared distance is a lower bound on the distance to every
row of the cloud. -/
theorem minSqDist_le (p : List ℚ) (data : Cloud) (q : List ℚ)
    (hq : q ∈ data) : minSqDist p data ≤ sqDist p q := by
  induction data with
  | nil => simp at hq
  | cons r rest ih =>
    rcases rest with _ | ⟨r1, rest1⟩
    · rcases List.mem_singleton.mp hq with rfl
      exact le_refl _
    · simp only [minSqDist]
      rcases List.mem_cons.mp hq with rfl | hq1
      · exact min_le_left _ _
      · exact le_trans (min_le_right _ _) (ih hq1)

/-- On a nonempty cloud the minimum squared distance is attained by some
row. -/
theorem minSqDist_mem (p : List ℚ) (data : Cloud) (hd : data ≠ []) :
    ∃ q ∈ data, minSqDist p data = sqDist p q := by
  induction data with
  | nil => exact absurd rfl hd
  | cons r rest ih =>
    rcases rest with _ | ⟨r1, rest1⟩
    · exact ⟨r, by simp, rfl⟩
    · obtain ⟨q, hq, he⟩ := ih (by simp)
      simp only [minSqDist]
      rcases le_total (sqDist p r) (minSqDist p (r1 :: rest1)) with hle | hle
      · exact ⟨r, by simp, by rw [min_eq_left hle]⟩
      · exact ⟨q, List.mem_cons_of_mem _ hq, by rw [min_eq_right hle, he]⟩

/-- The distance reported by the nearest-neighbor search is the minimum
squared distance to the tree data. -/
theorem nnBest_eq_minSqDist (p : List ℚ) (data : Cloud) (j : Nat) (d : ℚ)
    (h : nnBest p data = some (j, d)) : d = minSqDist p data := by
  have hd : data ≠ [] := by
    intro he; subst he; simp [nnBest] at h
  obtain ⟨j1, d1, hb, hlt, hget, hmin⟩ := nnBest_spec p data hd
  rw [hb] at h
  simp only [Option.some.injEq, Prod.mk.injEq] at h
  obtain ⟨rfl, rfl⟩ := h
  apply le_antisymm
  · obtain ⟨q, hq, he⟩ := minSqDist_mem p data hd
    rw [he]
    exact hmin q hq
  · have hmem : data.getD j1 [] ∈ data := by
      rw [List.getD_eq_getElem _ _ hlt]
      exact List.getElem_mem hlt
    calc minSqDist p data ≤ sqDist p (data.getD j1 []) :=
          minSqDist_le p data _ hmem
      _ = d1 := hget

/-- C1: `transform_points` does NOT reject a parameter vector whose length is
not 12: with 13 parameters it silently drops `params[9]` (the matrix is built
from `params[0..8]`, the translation from the LAST three entries) and returns
a transformed cloud instead of failing with `InvalidInput`.  Evaluation at the
failing input: points `[[1,2,3]]`, 13 parameters (identity matrix, stray
value 99, translation `[4,5,6]`) yield `ok [[5,7,9]]`. -/
theorem transform_points_no_length_check :
    transform_pointsE [[1, 2, 3]] [1, 0, 0, 0, 1, 0, 0, 0, 1, 99, 4, 5, 6]
      = Except.ok [[5, 7, 9]] := by
  norm_num [transform_pointsE, transform_points, affineRow]

/-- C2 (amended): the `AlignClouds` constructor performs no validation at
all: for every target cloud, the zero-point cloud included, construction
succeeds (scipy's `KDTree` accepts empty data), rather than failing with
`InvalidInput`. -/
theorem init_never_fails (ex_2 : Cloud) : initE ex_2 = Except.ok (init ex_2) :=
  rfl

/-- C2 counterexample: constructing from a target cloud with zero points does
not fail with `InvalidInput`; it succeeds and builds an empty index. -/
theorem init_empty_target_accepted :
    initE ([] : Cloud)
      = Except.ok { tree := { data := [] }, optimal_params := none } :=
  rfl

/-- C3 (amended): `estimate_transform` performs no eager validation: for
every minimizer, estimator state and pair of clouds — empty clouds included —
the method itself raises nothing before (or after) invoking the optimizer;
it always returns a result. -/
theorem estimate_transform_never_raises
    (minimize : (List ℚ → ℚ) → List ℚ → List ℚ) (self : AlignClouds)
    (source target : Cloud) :
    estimate_transformE minimize self source target
      = Except.ok (estimate_transform minimize self source target) :=
  rfl

/-- C3 counterexample: a run with an empty source cloud does not fail with
`InvalidInput` before optimization; it runs to completion and returns a
parameter vector. -/
theorem estimate_transform_empty_source_accepted :
    estimate_transformE (fun _ x0 => x0) (init [[0, 0, 0]]) [] [[0, 0, 0]]
      = Except.ok ([1, 0, 0, 0, 1, 0, 0, 0, 1, 0, 0, 0],
          { tree := { data := [[0, 0, 0]] },
            optimal_params := some [1, 0, 0, 0, 1, 0, 0, 0, 1, 0, 0, 0] }) := by
  norm_num [estimate_transformE, estimate_transform, initial_params, eye3flat,
    centroid3, colMean, init]

/-- C4: for every input cloud and every 12-scalar parameter vector,
`transform_points` maps each row to the spec formula — the row vector of the
first three coordinates right-multiplied by the transpose of the row-major
3×3 matrix formed from `params[0..8]`, plus the translation `params[9..11]` —
followed by the untouched remaining columns. -/
theorem transform_points_affine_spec (P : Cloud) (params : List ℚ)
    (h12 : params.length = 12) :
    transform_points P params
      = P.map (fun row => specAffineRow params row ++ row.drop 3) := by
  obtain ⟨a, b, c, d, e, f, g, h0, i, j, k, m, rfl⟩ := exists_len12 params h12
  unfold transform_points
  apply List.map_congr_left
  intro r _
  have hr3 : List.range 3 = [0, 1, 2] := rfl
  simp only [affineRow, specAffineRow, hr3, List.map_cons, List.map_nil,
    List.sum_cons, List.sum_nil]
  norm_num
  exact ⟨by ring, by ring, by ring⟩

/-- C4 witness: the theorem applied at a concrete cloud and parameter
vector. -/
theorem transform_points_affine_spec_witness :
    transform_points [[1, 2, 3, 4]] [2, 0, 0, 0, 3, 0, 0, 0, 4, 7, 8, 9]
      = [[1, 2, 3, 4]].map
          (fun row => specAffineRow [2, 0, 0, 0, 3, 0, 0, 0, 4, 7, 8, 9] row
            ++ row.drop 3) :=
  transform_points_affine_spec [[1, 2, 3, 4]] _ (by simp)

/-- C5: transforming any cloud whose rows have at least three coordinates by
the identity parameters (identity linear part, zero translation) returns the
cloud unchanged, extra columns included. -/
theorem transform_points_identity (P : Cloud)
    (hP : ∀ r ∈ P, 3 ≤ r.length) :
    transform_points P [1, 0, 0, 0, 1, 0, 0, 0, 1, 0, 0, 0] = P := by
  unfold transform_points
  conv_rhs => rw [← List.map_id P]
  apply List.map_congr_left
  intro r hr
  have h3 := hP r hr
  rcases r with _ | ⟨a, r⟩
  · simp only [List.length_nil] at h3; omega
  rcases r with _ | ⟨b, r⟩
  · simp only [List.length_cons, List.length_nil] at h3; omega
  rcases r with _ | ⟨c, r⟩
  · simp only [List.length_cons, List.length_nil] at h3; omega
  simp only [affineRow, id]
  norm_num

/-- C5 witness: the identity transform applied to a concrete cloud with an
extra column. -/
theorem transform_points_identity_witness :
    transform_points [[1, 2, 3, 4], [5, 6, 7, 8]]
      [1, 0, 0, 0, 1, 0, 0, 0, 1, 0, 0, 0] = [[1, 2, 3, 4], [5, 6, 7, 8]] :=
  transform_points_identity [[1, 2, 3, 4], [5, 6, 7, 8]] (by simp)

/-- C6: for every cloud with at least three columns and every 12-scalar
parameter vector, `transform_points` produces a new cloud (the embedding of
`points.copy()` followed by a column write: the input is never mutated) with
the same row count, and row-wise the same column count with every column
beyond the first three copied unchanged. -/
theorem transform_points_shape (P : Cloud) (params : List ℚ)
    (_h12 : params.length = 12) (hP : ∀ r ∈ P, 3 ≤ r.length) :
    (transform_points P params).length = P.length ∧
    List.Forall₂ (fun r2 r => r2.length = r.length ∧ r2.drop 3 = r.drop 3)
      (transform_points P params) P := by
  constructor
  · simp [transform_points]
  · unfold transform_points
    rw [List.forall₂_map_left_iff]
    rw [List.forall₂_same]
    intro r hr
    have h3 := hP r hr
    constructor
    · simp only [affineRow, List.length_append, List.length_cons,
        List.length_nil, List.length_drop]
      omega
    · rfl

/-- C6 witness: the theorem applied at a concrete cloud and parameter
vector. -/
theorem transform_points_shape_witness :
    (transform_points [[1, 2, 3, 4]] [2, 0, 0, 1, 3, 0, 0, 0, 4, 7, 8, 9]).length
        = ([[1, 2, 3, 4]] : Cloud).length ∧
    List.Forall₂ (fun r2 r => r2.length = r.length ∧ r2.drop 3 = r.drop 3)
      (transform_points [[1, 2, 3, 4]] [2, 0, 0, 1, 3, 0, 0, 0, 4, 7, 8, 9])
      [[1, 2, 3, 4]] :=
  transform_points_shape [[1, 2, 3, 4]] _ (by simp) (by simp)

/-- C7: the Chamfer loss of a nonempty cloud against itself, with the spatial
index built from that same cloud, is exactly zero: every point is at distance
zero from its nearest neighbor, and the coordinates read back agree exactly. -/
theorem loss_function_self_zero (C : Cloud) (hne : C ≠ [])
    (_h3 : ∀ r ∈ C, 3 ≤ r.length) :
    loss_function (init C) C C = 0 := by
  have ht : (init C).tree.data = C.map (List.take 3) := rfl
  unfold loss_function KDTree.query1
  rw [ht]
  apply List.sum_eq_zero
  intro x hx
  simp only [List.mem_map] at hx
  obtain ⟨a, ha, rfl⟩ := hx
  have hdne : C.map (List.take 3) ≠ [] := by
    intro hmap
    rw [List.map_eq_nil_iff] at hmap
    exact hne hmap
  obtain ⟨j, d, hb, hlt, hget, hmin⟩ := nnBest_spec (a.take 3) _ hdne
  have hq : nnIndex (a.take 3) (C.map (List.take 3)) = j := by
    unfold nnIndex
    rw [hb]
  rw [hq]
  have hlenC : j < C.length := by simpa using hlt
  have hCj : (C.getD j []).take 3 = (C.map (List.take 3)).getD j [] := by
    rw [List.getD_eq_getElem _ _ hlt, List.getD_eq_getElem _ _ hlenC,
      List.getElem_map]
  rw [hCj, hget]
  have hd0 : d ≤ 0 := by
    have hmem : a.take 3 ∈ C.map (List.take 3) := List.mem_map_of_mem _ ha
    have h := hmin _ hmem
    rwa [sqDist_self] at h
  have h0d : 0 ≤ d := by
    rw [← hget]
    exact sqDist_nonneg _ _
  linarith

/-- C7 witness: the theorem applied at a concrete two-point cloud. -/
theorem loss_function_self_zero_witness :
    loss_function (init [[0, 0, 0], [1, 2, 3]]) [[0, 0, 0], [1, 2, 3]]
      [[0, 0, 0], [1, 2, 3]] = 0 :=
  loss_function_self_zero [[0, 0, 0], [1, 2, 3]] (by simp) (by simp)

/-- C8: for nonempty source and target clouds, the initial guess of
`estimate_transform` is the flattened identity matrix (the nine scalars
1,0,0,0,1,0,0,0,1) followed, component-wise, by the mean of the target's
first three coordinate columns minus the mean of the source's. -/
theorem initial_params_eq (source target : Cloud)
    (_hs : source ≠ []) (_ht : target ≠ []) :
    initial_params source target
      = [1, 0, 0, 0, 1, 0, 0, 0, 1,
         (target.map (fun r => r.getD 0 0)).sum / (target.length : ℚ)
           - (source.map (fun r => r.getD 0 0)).sum / (source.length : ℚ),
         (target.map (fun r => r.getD 1 0)).sum / (target.length : ℚ)
           - (source.map (fun r => r.getD 1 0)).sum / (source.length : ℚ),
         (target.map (fun r => r.getD 2 0)).sum / (target.length : ℚ)
           - (source.map (fun r => r.getD 2 0)).sum / (source.length : ℚ)] :=
  rfl

/-- C8 witness: the theorem applied at concrete one-point clouds, where the
translation guess is the difference of the two points. -/
theorem initial_params_eq_witness :
    initial_params [[1, 2, 3]] [[4, 6, 8]]
      = [1, 0, 0, 0, 1, 0, 0, 0, 1,
         (([[4, 6, 8]] : Cloud).map (fun r => r.getD 0 0)).sum / ((1 : Nat) : ℚ)
           - (([[1, 2, 3]] : Cloud).map (fun r => r.getD 0 0)).sum / ((1 : Nat) : ℚ),
         (([[4, 6, 8]] : Cloud).map (fun r => r.getD 1 0)).sum / ((1 : Nat) : ℚ)
           - (([[1, 2, 3]] : Cloud).map (fun r => r.getD 1 0)).sum / ((1 : Nat) : ℚ),
         (([[4, 6, 8]] : Cloud).map (fun r => r.getD 2 0)).sum / ((1 : Nat) : ℚ)
           - (([[1, 2, 3]] : Cloud).map (fun r => r.getD 2 0)).sum / ((1 : Nat) : ℚ)] :=
  initial_params_eq [[1, 2, 3]] [[4, 6, 8]] (by simp) (by simp)

/-- C9: with the external optimizer modelled as the function interface
`minimize(objective_fn, initial_params) -> final_params` (scipy's L-BFGS-B,
which involves no randomness and returns a vector of the length of its
starting point), two calls of `estimate_transform` on identical inputs
return identical results; the returned vector has exactly 12 entries and is
recorded in `optimal_params` as the estimator's last-known optimum. -/
theorem estimate_transform_deterministic
    (minimize : (List ℚ → ℚ) → List ℚ → List ℚ)
    (hm : ∀ f x0, (minimize f x0).length = x0.length)
    (self : AlignClouds) (source target : Cloud)
    (_hs : source ≠ []) (_ht : target ≠ []) :
    (estimate_transform minimize self source target
        = estimate_transform minimize self source target) ∧
      (estimate_transform minimize self source target).1.length = 12 ∧
      (estimate_transform minimize self source target).2.optimal_params
        = some (estimate_transform minimize self source target).1 := by
  refine ⟨rfl, ?_, rfl⟩
  show (minimize _ (initial_params source target)).length = 12
  rw [hm]
  rfl

/-- C9 witness: the theorem applied with a concrete minimizer and concrete
one-point clouds. -/
theorem estimate_transform_deterministic_witness :
    (estimate_transform (fun _ x0 => x0) (init [[4, 6, 8]]) [[1, 2, 3]] [[4, 6, 8]]
        = estimate_transform (fun _ x0 => x0) (init [[4, 6, 8]]) [[1, 2, 3]] [[4, 6, 8]]) ∧
      (estimate_transform (fun _ x0 => x0) (init [[4, 6, 8]]) [[1, 2, 3]]
          [[4, 6, 8]]).1.length = 12 ∧
      (estimate_transform (fun _ x0 => x0) (init [[4, 6, 8]]) [[1, 2, 3]]
          [[4, 6, 8]]).2.optimal_params
        = some (estimate_transform (fun _ x0 => x0) (init [[4, 6, 8]]) [[1, 2, 3]]
            [[4, 6, 8]]).1 :=
  estimate_transform_deterministic (fun _ x0 => x0) (fun _ _ => rfl)
    (init [[4, 6, 8]]) [[1, 2, 3]] [[4, 6, 8]] (by simp) (by simp)

/-- C10: `loss_function` queries nearest neighbors against the cloud the
index was built from in the constructor but reads the corresponding
coordinates from its second argument `B`; consequently it equals the
source-to-target Chamfer distance (sum of minimum squared distances into the
construction-time target `T`) under the precondition that `B` agrees with
`T` on the first three columns at every index of `T`. -/
theorem loss_function_is_chamfer (T A B : Cloud) (hT : T ≠ [])
    (hB : ∀ i, i < T.length → (B.getD i []).take 3 = (T.getD i []).take 3) :
    loss_function (init T) A B = chamferLoss A T := by
  have ht : (init T).tree.data = T.map (List.take 3) := rfl
  unfold loss_function KDTree.query1 chamferLoss
  rw [ht]
  congr 1
  apply List.map_congr_left
  intro a _
  have hdne : T.map (List.take 3) ≠ [] := by
    intro hmap
    rw [List.map_eq_nil_iff] at hmap
    exact hT hmap
  obtain ⟨j, d, hb, hlt, hget, hmin⟩ := nnBest_spec (a.take 3) _ hdne
  have hq : nnIndex (a.take 3) (T.map (List.take 3)) = j := by
    unfold nnIndex
    rw [hb]
  rw [hq]
  have hlenT : j < T.length := by simpa using hlt
  have hTj : (T.getD j []).take 3 = (T.map (List.take 3)).getD j [] := by
    rw [List.getD_eq_getElem _ _ hlt, List.getD_eq_getElem _ _ hlenT,
      List.getElem_map]
  rw [hB j hlenT, hTj, hget]
  exact nnBest_eq_minSqDist (a.take 3) _ j d hb

/-- C10 witness: the theorem applied at concrete clouds where the argument
`B` agrees with the construction-time target on the first three columns. -/
theorem loss_function_is_chamfer_witness :
    loss_function (init [[0, 0, 0]]) [[1, 1, 1]] [[0, 0, 0, 7]]
      = chamferLoss [[1, 1, 1]] [[0, 0, 0]] :=
  loss_function_is_chamfer [[0, 0, 0]] [[1, 1, 1]] [[0, 0, 0, 7]] (by simp)
    (by
      intro i hi
      simp only [List.length_cons, List.length_nil] at hi
      have hi0 : i = 0 := by omega
      subst hi0
      rfl)

end AlignerModel
